import Mathlib

set_option maxRecDepth 8000

/-!
Shallow embedding of the Tools repository: the MusicBrainz-based
auto-tagger (`auto_tagger.py`) and the Spotify downloader
(`spotify-dowloader.py`).  Strings are modelled as `List Char` where
character-level processing matters and as `String` elsewhere; machine
interaction (HTTP, file system, console input) is modelled by explicit
oracle parameters.  All definitions are executable.
-/

/-- Python whitespace characters recognised by `str.strip` and by the
regex class `\s` (the ASCII fragment; the inputs of interest contain no
exotic Unicode whitespace). -/
def pySpace (c : Char) : Bool :=
  c = ' ' || c = '\t' || c = '\n' || c = '\r' || c = Char.ofNat 11 || c = Char.ofNat 12

/-- Model of Python `str.lstrip()`. -/
def lstripL (s : List Char) : List Char := s.dropWhile pySpace

/-- Model of Python `str.rstrip()`. -/
def rstripL (s : List Char) : List Char := (s.reverse.dropWhile pySpace).reverse

/-- Model of Python `str.strip()`. -/
def stripL (s : List Char) : List Char := rstripL (lstripL s)

/-- Split a (separator-free) filename at its last dot, returning the part
before the dot and the part from the dot on; `none` when the name has no
dot.  Helper for `splitext`. -/
def splitLastDot : List Char → Option (List Char × List Char)
  | [] => none
  | c :: cs =>
    match splitLastDot cs with
    | some p => some (c :: p.1, p.2)
    | none => if c = '.' then some ([], c :: cs) else none

/-- Model of `os.path.splitext` for plain filenames (no directory
separators): the extension starts at the last dot, except that a name
whose characters before that dot are all dots has no extension. -/
def splitext (s : List Char) : List Char × List Char :=
  match splitLastDot s with
  | some p => if p.1.any (fun c => c != '.') then p else (s, [])
  | none => (s, [])

/-- The character rewriting performed by
`name_no_ext.replace("_", " ").replace("-", " ")` in
`parse_classical_filename`. -/
def normCh (c : Char) : Char := if c = '_' || c = '-' then ' ' else c

/-- The delimiter class `[:：\-]` of the split regex in
`parse_classical_filename`. -/
def isDelim (c : Char) : Bool := c = ':' || c = '：' || c = '-'

/-- Model of `re.split(r"[:：\-]\s*", s, maxsplit=1)`: `none` when no
delimiter occurs in `s`, otherwise the part before the first delimiter
and the part after it, with the whitespace following the delimiter
consumed. -/
def reSplitOnce : List Char → Option (List Char × List Char)
  | [] => none
  | c :: cs =>
    if isDelim c then some ([], cs.dropWhile pySpace)
    else (reSplitOnce cs).map (fun p => (c :: p.1, p.2))

/-- `parse_classical_filename` from `auto_tagger.py`: drop the extension,
replace underscores and hyphens by spaces, split once on the first
delimiter, strip both parts, and fall back to `"Unknown"` for a composer
guess shorter than two characters. -/
def parse_classical_filename (filename : List Char) : List Char × List Char :=
  let name_no_ext := (splitext filename).1
  let name2 := name_no_ext.map normCh
  let parsed :=
    match reSplitOnce name2 with
    | some p => (stripL p.1, stripL p.2)
    | none => ("Unknown".data, name2)
  if parsed.1.length < 2 then ("Unknown".data, parsed.2) else parsed

/-- A release entry inside a MusicBrainz recording result
(`release-list` member): its optional `title` and `date` keys. -/
structure MbRelease where
  title : Option String
  date : Option String
deriving DecidableEq

/-- An `artist-credit` entry of a MusicBrainz recording result: the
optional `name` key of its `artist` object. -/
structure MbCredit where
  name : Option String
deriving DecidableEq

/-- A MusicBrainz recording entry as consumed by
`lookup_musicbrainz_recording`: the optional `title` key, the
`artist-credit` list and the `release-list`. -/
structure MbRecord where
  title : Option String
  credits : List MbCredit
  releases : List MbRelease
deriving DecidableEq

/-- The metadata dictionary built by `lookup_musicbrainz_recording`.
Every key the code stores is modelled as an `Option` so that a missing
key (never produced by this function, but checked by the tag writer) is
representable. -/
structure MbMeta where
  title : Option String
  artist : Option String
  album : Option String
  date : Option String
  composer : Option String
  genre : Option String
deriving DecidableEq

/-- `lookup_musicbrainz_recording` from `auto_tagger.py`, with the
search transport replaced by the `recList` it returns
(`results['recording-list']`).  An empty result list yields `none`;
otherwise the first entry is used, falling back to the guesses for a
missing title or artist credit and to empty strings for a missing
release. -/
def lookup_musicbrainz_recording (artist_guess track_guess : String)
    (recList : List MbRecord) : Option MbMeta :=
  match recList with
  | [] => none
  | best :: _ =>
    some {
      title := some (best.title.getD track_guess)
      artist := some (match best.credits with
        | [] => artist_guess
        | c :: _ => c.name.getD artist_guess)
      album := some (match best.releases with
        | [] => ""
        | rel :: _ => rel.title.getD "")
      date := some (match best.releases with
        | [] => ""
        | rel :: _ => rel.date.getD "")
      composer := some artist_guess
      genre := some "Classical" }

/-- The ID3 tag state of an MP3 file, as seen through mutagen: each
EasyID3 text frame holds a list of strings (`none` = frame absent), and
the `APIC` picture frame holds raw bytes. -/
structure Id3Tags where
  title : Option (List String)
  artist : Option (List String)
  album : Option (List String)
  date : Option (List String)
  composer : Option (List String)
  genre : Option (List String)
  albumartist : Option (List String)
  tracknumber : Option (List String)
  isrc : Option (List String)
  apic : Option (List Nat)
deriving DecidableEq

/-- A freshly initialised tag container (a file with no ID3 header gets
one created by both tag writers before any field is set). -/
def emptyId3 : Id3Tags :=
  { title := none, artist := none, album := none, date := none, composer := none
    genre := none, albumartist := none, tracknumber := none, isrc := none, apic := none }

/-- `normalize_unknown` from `auto_tagger.py`. -/
def normalize_unknown (v : String) : String :=
  if v = "[unknown]" then "Unknown" else v

/-- The effect of `store_if_present(field, key)` on one frame: if the
key is present in the metadata dict with a non-empty value, the frame is
set to that value (with the `"[unknown]"` sentinel rewritten to
`"Unknown"`); otherwise the frame is left as it was. -/
def storeVal (v : Option String) (old : Option (List String)) : Option (List String) :=
  match v with
  | none => old
  | some s => if s = "" then old else some [if s = "[unknown]" then "Unknown" else s]

/-- `set_id3_tags` from `auto_tagger.py`: store the six metadata keys
via `store_if_present` and save; all other frames are untouched. -/
def set_id3_tags (mb : MbMeta) (t : Id3Tags) : Id3Tags :=
  { t with
    title := storeVal mb.title t.title
    artist := storeVal mb.artist t.artist
    album := storeVal mb.album t.album
    date := storeVal mb.date t.date
    composer := storeVal mb.composer t.composer
    genre := storeVal mb.genre t.genre }

/-- The six metadata keys handled by `set_id3_tags`. -/
inductive MbField
  | title | artist | album | date | composer | genre
deriving DecidableEq

/-- Read one key of the MusicBrainz metadata dict. -/
def mbGet (m : MbMeta) : MbField → Option String
  | .title => m.title
  | .artist => m.artist
  | .album => m.album
  | .date => m.date
  | .composer => m.composer
  | .genre => m.genre

/-- Read one of the six corresponding frames of a tag state. -/
def tagGet (t : Id3Tags) : MbField → Option (List String)
  | .title => t.title
  | .artist => t.artist
  | .album => t.album
  | .date => t.date
  | .composer => t.composer
  | .genre => t.genre

/-- One iteration of the per-file loop in `auto_tagger.py`'s `main`:
parse the filename, skip the file when no track guess was parsed, query
MusicBrainz (modelled by the result list `recList` for this file's
guesses), skip the file when no match was found, and otherwise write the
tags.  Returns the resulting tag state of the file and whether it was
tagged. -/
def processFile (fname : List Char) (recList : List MbRecord) (t : Id3Tags) :
    Id3Tags × Bool :=
  let parsed := parse_classical_filename fname
  if parsed.2.isEmpty then (t, false)
  else
    match lookup_musicbrainz_recording (String.mk parsed.1) (String.mk parsed.2) recList with
    | none => (t, false)
    | some meta => (set_id3_tags meta t, true)

/-- The track metadata dictionary built by `get_track_info` in
`spotify-dowloader.py`. -/
structure TrackMeta where
  artist_name : String
  track_title : String
  track_number : Nat
  isrc : String
  album_art : String
  album_name : String
  release_date : String
  artists : List String
deriving DecidableEq

/-- `set_metadata` from `spotify-dowloader.py`: album artist, artist
list, album, title, date and track number are assigned unconditionally;
the ISRC only when non-empty; finally the cover art fetched from the
album-art URL is stored in the `APIC` frame.  `fetchArt` models
`urllib.request.urlopen(...).read()`. -/
def set_metadata (md : TrackMeta) (fetchArt : String → List Nat) (t : Id3Tags) : Id3Tags :=
  { t with
    albumartist := some [md.artist_name]
    artist := some md.artists
    album := some [md.album_name]
    title := some [md.track_title]
    date := some [md.release_date]
    tracknumber := some [Nat.repr md.track_number]
    isrc := if md.isrc = "" then t.isrc else some [md.isrc]
    apic := some (fetchArt md.album_art) }

/-- The retry loop of `find_youtube`: `remaining` counts the iterations
the guard `attempts < 3` still allows (`remaining = 3 - attempts`), and
`tr n` is the outcome of the `n`-th `urlopen` call (`none` = exception).
Returns the response (if any), the total number of `urlopen` calls made,
and the list of `time.sleep` durations performed. -/
def retryFetchAux (tr : Nat → Option String) :
    Nat → Nat → List Nat → Option String × Nat × List Nat
  | 0, attempts, sleeps => (none, attempts, sleeps)
  | r + 1, attempts, sleeps =>
    match tr attempts with
    | some html => (some html, attempts + 1, sleeps)
    | none => retryFetchAux tr r (attempts + 1) (sleeps ++ [1])

/-- Scanner for `re.findall(r"watch\?v=(\S{11})", html)`: at each
position try to match the literal `watch?v=` followed by exactly eleven
non-whitespace characters; matches are non-overlapping, and a failed
position advances by one character.  `fuel` bounds the scan and is set
to the text length by `extractIds`. -/
def extractIdsAux (pat : List Char) : Nat → List Char → List (List Char)
  | 0, _ => []
  | _ + 1, [] => []
  | fuel + 1, c :: cs =>
    if pat.isPrefixOf (c :: cs) then
      let rest := (c :: cs).drop pat.length
      let idc := rest.take 11
      if idc.length = 11 && idc.all (fun ch => !(pySpace ch)) then
        idc :: extractIdsAux pat fuel (rest.drop 11)
      else extractIdsAux pat fuel cs
    else extractIdsAux pat fuel cs

/-- All video identifiers found in a results page. -/
def extractIds (html : List Char) : List (List Char) :=
  extractIdsAux "watch?v=".data html.length html

/-- The two failure modes of `find_youtube`: the transport was
unreachable on every attempt, or the page contained no video id. -/
inductive SearchErr
  | unreachable
  | noResults
deriving DecidableEq

/-- Result of a `find_youtube` call: the link of the first candidate,
or the exception raised. -/
inductive SearchResult
  | ok (link : String)
  | err (e : SearchErr)
deriving DecidableEq

/-- Observable outcome of one `find_youtube` call: its result, how many
`urlopen` calls it made, and the sleeps it performed. -/
structure SearchTrace where
  result : SearchResult
  calls : Nat
  sleeps : List Nat
deriving DecidableEq

/-- `find_youtube` from `spotify-dowloader.py`, with the network
replaced by the oracle `tr`: retry the fetch while `attempts < 3`,
raising on exhaustion; on a response, extract the candidate ids and
return the link of the first one, raising when none is found. -/
def find_youtube (tr : Nat → Option String) : SearchTrace :=
  match retryFetchAux tr 3 0 [] with
  | (none, calls, sleeps) => ⟨SearchResult.err SearchErr.unreachable, calls, sleeps⟩
  | (some html, calls, sleeps) =>
    match extractIds html.data with
    | [] => ⟨SearchResult.err SearchErr.noResults, calls, sleeps⟩
    | id0 :: _ =>
      ⟨SearchResult.ok ("https://www.youtube.com/watch?v=" ++ String.mk id0), calls, sleeps⟩

/-- Normalisation applied to a prompt answer:
`input(...).upper().strip()`. -/
def normResp (s : List Char) : List Char := stripL (s.map Char.toUpper)

/-- The `while True` prompt loop of `prompt_file_exists_action`:
`inputs` is the stream of user answers, `n` the number of `input` calls
already made.  Returns the decision (`true` = replace), the new value of
the global `file_exists_action`, and the total number of prompts; `none`
when the supplied answers run out while still invalid (the real loop
would keep prompting). -/
def promptLoop (sticky : String) : List String → Nat → Option (Bool × String × Nat)
  | [], _ => none
  | resp :: rest, n =>
    let r := String.mk (normResp resp.data)
    if r = "R" then some (true, sticky, n + 1)
    else if r = "RA" then some (true, "RA", n + 1)
    else if r = "S" then some (false, sticky, n + 1)
    else if r = "SA" then some (false, "SA", n + 1)
    else promptLoop sticky rest (n + 1)

/-- `prompt_file_exists_action` from `spotify-dowloader.py`, with the
global `file_exists_action` passed in and returned explicitly: when it
is already `"SA"` or `"RA"` the stored decision is reused with no
prompt; otherwise the user is prompted until a valid answer arrives. -/
def prompt_file_exists_action (sticky : String) (inputs : List String) :
    Option (Bool × String × Nat) :=
  if sticky = "SA" || sticky = "RA" then some (sticky == "RA", sticky, 0)
  else promptLoop sticky inputs 0

/-- The first valid (normalised) answer in a stream together with the
number of prompts needed to reach it.  Claim-side description of the
prompt loop. -/
def firstValid : List String → Nat → Option (String × Nat)
  | [], _ => none
  | resp :: rest, n =>
    let r := String.mk (normResp resp.data)
    if r = "R" || r = "RA" || r = "S" || r = "SA" then some (r, n + 1)
    else firstValid rest (n + 1)

/-- The decision, sticky state and prompt count determined by a valid
answer, per the claim's reading of the prompt. -/
def respAction (p : String × Nat) : Bool × String × Nat :=
  (p.1 == "R" || p.1 == "RA",
   if p.1 = "RA" then "RA" else if p.1 = "SA" then "SA" else "", p.2)

/-- A whole run's worth of collision handling: fold
`prompt_file_exists_action` over the collision events, each carrying its
own stream of user answers, threading the sticky state.  An exhausted
answer stream (a prompt that would loop forever) yields `none` for that
and all remaining collisions. -/
def runCollisions (sticky : String) : List (List String) → List (Option (Bool × Nat)) × String
  | [] => ([], sticky)
  | ins :: rest =>
    match prompt_file_exists_action sticky ins with
    | some (b, st2, n) =>
      let tail := runCollisions st2 rest
      (some (b, n) :: tail.1, tail.2)
    | none => (none :: rest.map (fun _ => none), sticky)

/-- A track object inside a playlist item: its optional `id` key. -/
structure PlTrack where
  id : Option String
deriving DecidableEq

/-- One member of a playlist page: `none` models a `None` track entry
(a deleted placeholder). -/
def PlItem : Type := Option PlTrack

/-- One page returned by `sp.playlist_items`: its `items` list and the
truthiness of its `next` field. -/
structure Page where
  items : List PlItem
  next : Bool

/-- The body of the paging loop of `get_playlist_info` applied to one
page's items: `None` tracks and tracks with a falsy id are skipped, the
rest are resolved through `get_track_info` (modelled by the oracle
`resolveTrack`). -/
def collectPage (resolveTrack : String → TrackMeta) (items : List PlItem) : List TrackMeta :=
  items.filterMap (fun it =>
    match it with
    | none => none
    | some track =>
      match track.id with
      | none => none
      | some i => if i = "" then none else some (resolveTrack i))

/-- The `while True` paging loop of `get_playlist_info`: fetch the page
at `offset`, stop on an empty page, otherwise append the resolved
members, advance the offset by the page length, and stop when the page
has no `next`.  `fuel` bounds the number of iterations; `none` reports
that the loop would still be running after `fuel` pages. -/
def paginate (pages : Nat → Page) (resolveTrack : String → TrackMeta) :
    Nat → Nat → List TrackMeta → Option (List TrackMeta)
  | 0, _, _ => none
  | fuel + 1, offset, acc =>
    let page := pages offset
    if page.items.isEmpty then some acc
    else
      let acc2 := acc ++ collectPage resolveTrack page.items
      if page.next then paginate pages resolveTrack fuel (offset + page.items.length) acc2
      else some acc2

/-- The external world of one `get_playlist_info` call: the status code
of the `requests.get` probe, the `public` flag of the playlist record,
the pages served by `sp.playlist_items`, and the per-track metadata
fetch. -/
structure PlaylistEnv where
  status : Nat
  isPublic : Bool
  pages : Nat → Page
  resolveTrack : String → TrackMeta

/-- `get_playlist_info` from `spotify-dowloader.py`: a non-200 probe or
a private playlist raises `ValueError` before any pagination; otherwise
the paging loop collects every track.  `none` reports loop fuel
exhaustion. -/
def get_playlist_info (env : PlaylistEnv) (fuel : Nat) :
    Option (Except String (List TrackMeta)) :=
  if env.status ≠ 200 then
    some (Except.error "Invalid or inaccessible Spotify playlist URL.")
  else if env.isPublic = false then
    some (Except.error "Cannot download from a private playlist. Make it public first.")
  else (paginate env.pages env.resolveTrack fuel 0 []).map Except.ok

/-- What the external world does for one item of the download loop in
`main`: the search raises, `download_yt` raises, `download_yt` returns
`None` (user skip), `set_metadata`/`os.replace` raises, or everything
succeeds. -/
inductive StepEnv
  | searchErr
  | dlErr
  | dlSkip
  | tagErr
  | ok
deriving DecidableEq

/-- Outcome of the `for` loop over the songs in `main`: the final
`downloaded_count`, whether an uncaught exception aborted the loop, and
how many items the loop entered before ending. -/
structure LoopResult where
  downloaded : Nat
  aborted : Bool
  visited : Nat
deriving DecidableEq

/-- The download loop of `main` in `spotify-dowloader.py`: a search
failure is caught (`continue`), a skip leaves the count unchanged, and
an exception from the download or tagging stage propagates out of the
loop to the run-level handler, aborting the remaining items. -/
def runLoop : List StepEnv → LoopResult
  | [] => ⟨0, false, 0⟩
  | s :: rest =>
    match s with
    | .searchErr => let r := runLoop rest; ⟨r.downloaded, r.aborted, r.visited + 1⟩
    | .dlSkip => let r := runLoop rest; ⟨r.downloaded, r.aborted, r.visited + 1⟩
    | .ok => let r := runLoop rest; ⟨r.downloaded + 1, r.aborted, r.visited + 1⟩
    | .dlErr => ⟨0, true, 1⟩
    | .tagErr => ⟨0, true, 1⟩

/-- Outcome of one whole run of `main`: the final summary line (`none`
when the run was aborted by an exception before reaching it), the
number of downloaded items, the number of items the loop entered, and
whether the run-level `except` handler fired. -/
structure RunOutcome where
  summary : Option (Nat × Nat)
  downloaded : Nat
  visited : Nat
  aborted : Bool
deriving DecidableEq

/-- `main` from `spotify-dowloader.py` after URL handling: a failure
while building the song list is caught by the run-level handler with no
item processed; otherwise the download loop runs and, when it was not
aborted, the summary `downloaded/total` is printed. -/
def mainRun (resolution : Except String (List StepEnv)) : RunOutcome :=
  match resolution with
  | .error _ => ⟨none, 0, 0, true⟩
  | .ok songs =>
    let r := runLoop songs
    ⟨if r.aborted then none else some (r.downloaded, songs.length),
     r.downloaded, r.visited, r.aborted⟩

/-- A playlist run of `main`: resolve the playlist, then run the
download loop, where `beh n` is the behaviour of the external world for
the `n`-th resolved song. -/
def mainPlaylist (env : PlaylistEnv) (beh : Nat → StepEnv) (fuel : Nat) :
    Option RunOutcome :=
  match get_playlist_info env fuel with
  | none => none
  | some (Except.error e) => some (mainRun (Except.error e))
  | some (Except.ok songs) =>
    some (mainRun (Except.ok ((List.range songs.length).map beh)))

/-- Bool-valued prefix test on character lists (`pat` first). -/
def startsWithL (pat s : List Char) : Bool :=
  match pat, s with
  | [], _ => true
  | _ :: _, [] => false
  | p :: ps, c :: cs => p = c && startsWithL ps cs

/-- Python's `sub in s` substring containment. -/
def containsSub (s pat : List Char) : Bool :=
  match s with
  | [] => startsWithL pat []
  | _ :: cs => startsWithL pat s || containsSub cs pat

/-- The `.+$` tail of the URL regex: one or more non-newline characters,
with `$` also matching just before a single trailing newline. -/
def tailOk (r : List Char) : Bool :=
  match r.reverse with
  | [] => false
  | last :: front =>
    if last = '\n' then !front.isEmpty && front.all (fun c => c != '\n')
    else r.all (fun c => c != '\n')

/-- The part of the URL regexp after the optional scheme:
`open\.spotify\.com/(playlist|track)/.+$`. -/
def coreMatch (s : List Char) : Bool :=
  startsWithL "open.spotify.com/".data s &&
    (let rest := s.drop 17
     (startsWithL "playlist/".data rest && tailOk (rest.drop 9)) ||
       (startsWithL "track/".data rest && tailOk (rest.drop 6)))

/-- `validate_spotify_url` from `spotify-dowloader.py`: whether
`re.search(r"^(https?://)?open\.spotify\.com/(playlist|track)/.+$", url)`
matches (`true`) or a `ValueError` is raised (`false`). -/
def validate_spotify_url (url : List Char) : Bool :=
  (startsWithL "https://".data url && coreMatch (url.drop 8)) ||
    (startsWithL "http://".data url && coreMatch (url.drop 7)) ||
    coreMatch url

/-- The three arms of the URL dispatch in `main`. -/
inductive UrlKind
  | track
  | playlist
  | invalid
deriving DecidableEq

/-- The dispatch in `main` after validation: `if "track" in url: ...
elif "playlist" in url: ... else: raise`. -/
def dispatch (url : List Char) : UrlKind :=
  if containsSub url "track".data then UrlKind.track
  else if containsSub url "playlist".data then UrlKind.playlist
  else UrlKind.invalid

/-- Count of fully successful items in a run, claim-side description of
the final `downloaded_count`. -/
def countOk : List StepEnv → Nat
  | [] => 0
  | StepEnv.ok :: rest => countOk rest + 1
  | _ :: rest => countOk rest

/-! ### Helper lemmas -/

theorem dropWhile_pySpace_idem (l : List Char) :
    (l.dropWhile pySpace).dropWhile pySpace = l.dropWhile pySpace := by
  induction l with
  | nil => rfl
  | cons c cs ih =>
    by_cases h : pySpace c <;> simp [List.dropWhile_cons, h, ih]

theorem stripL_dropWhile (r : List Char) :
    stripL (r.dropWhile pySpace) = stripL r := by
  simp [stripL, lstripL, dropWhile_pySpace_idem]

theorem reSplitOnce_eq_none (n : List Char) (h : ∀ c ∈ n, isDelim c = false) :
    reSplitOnce n = none := by
  induction n with
  | nil => rfl
  | cons c cs ih =>
    have hc := h c (by simp)
    simp [reSplitOnce, hc, ih (fun x hx => h x (by simp [hx]))]

theorem reSplitOnce_eq_some (l : List Char) (d : Char) (r : List Char)
    (hl : ∀ c ∈ l, isDelim c = false) (hd : isDelim d = true) :
    reSplitOnce (l ++ d :: r) = some (l, r.dropWhile pySpace) := by
  induction l with
  | nil => simp [reSplitOnce, hd]
  | cons c cs ih =>
    have hc := hl c (by simp)
    simp [reSplitOnce, hc, ih (fun x hx => hl x (by simp [hx]))]

/-! ### Claim theorems -/

/-- C3: heuristic parsing removes the extension, normalises underscores
and hyphens to spaces, then splits on the first delimiter from
`{":", "：", "-"}`: the left segment (trimmed) is the artist guess,
replaced by `"Unknown"` when shorter than 2 characters, and the right
segment (trimmed) — or the whole normalised string when no delimiter
occurs — is the title guess; in particular
`"Chopin: Polonaise in G minor"` parses to `("Chopin", "Polonaise in G
minor")` and `"ab"` parses to `("Unknown", "ab")`. -/
theorem parse_filename_spec :
    (∀ f : List Char, (∀ c ∈ ((splitext f).1).map normCh, isDelim c = false) →
      parse_classical_filename f = ("Unknown".data, ((splitext f).1).map normCh))
    ∧ (∀ (f l : List Char) (d : Char) (r : List Char),
        ((splitext f).1).map normCh = l ++ d :: r → isDelim d = true →
        (∀ c ∈ l, isDelim c = false) →
        parse_classical_filename f =
          (if (stripL l).length < 2 then "Unknown".data else stripL l, stripL r))
    ∧ parse_classical_filename "Chopin: Polonaise in G minor".data =
        ("Chopin".data, "Polonaise in G minor".data)
    ∧ parse_classical_filename "ab".data = ("Unknown".data, "ab".data) := by
  refine ⟨?_, ?_, by decide, by decide⟩
  · intro f h
    have hn := reSplitOnce_eq_none _ h
    simp [parse_classical_filename, hn]
  · intro f l d r heq hd hl
    have hs := reSplitOnce_eq_some l d r hl hd
    by_cases hc : (stripL l).length < 2 <;>
      simp [parse_classical_filename, heq, hs, stripL_dropWhile, hc]

/-- Witness for C3: the no-delimiter branch on a concrete underscored
name and the delimiter branch on a concrete `Composer: Title` name. -/
theorem parse_filename_spec_witness :
    parse_classical_filename "Debussy_Clair de lune".data =
      ("Unknown".data, "Debussy Clair de lune".data)
    ∧ parse_classical_filename "Liszt: Liebestraum No. 3.mp3".data =
      ("Liszt".data, "Liebestraum No. 3".data) := by
  constructor
  · exact (parse_filename_spec.1 "Debussy_Clair de lune".data (by decide)).trans (by decide)
  · exact (parse_filename_spec.2.1 "Liszt: Liebestraum No. 3.mp3".data "Liszt".data ':'
      " Liebestraum No. 3".data (by decide) (by decide) (by decide)).trans (by decide)

/-- C2 counterexample: for a concrete filename whose guess finds no
corroborating MusicBrainz record, the pipeline does not tag the file
with a partial identity — the lookup returns nothing and the file is
skipped with its tags untouched. -/
theorem heuristic_no_match_cex :
    (processFile "Chopin: Polonaise.mp3".data [] emptyId3).2 = false
    ∧ (processFile "Chopin: Polonaise.mp3".data [] emptyId3).1 = emptyId3
    ∧ ¬ (processFile "Chopin: Polonaise.mp3".data [] emptyId3).1.title = some ["Polonaise"] := by
  decide

/-- C2 amended: when the guess finds no corroborating record, the lookup
yields no metadata and the file is skipped untagged (not an error); the
partial identity built from the guess alone (title = guess, artist =
guess, album and date empty, genre `"Classical"`) arises only when a
record is found but carries no title, credits or releases, and then the
pipeline does proceed to tag with it. -/
theorem heuristic_no_match_spec :
    (∀ a g : String, lookup_musicbrainz_recording a g [] = none)
    ∧ (∀ (fname : List Char) (t : Id3Tags), processFile fname [] t = (t, false))
    ∧ (∀ a g : String, lookup_musicbrainz_recording a g [⟨none, [], []⟩] =
        some ⟨some g, some a, some "", some "", some a, some "Classical"⟩)
    ∧ (∀ (fname : List Char) (t : Id3Tags),
        ((parse_classical_filename fname).2).isEmpty = false →
        processFile fname [⟨none, [], []⟩] t =
          (set_id3_tags ⟨some (String.mk (parse_classical_filename fname).2),
                         some (String.mk (parse_classical_filename fname).1),
                         some "", some "",
                         some (String.mk (parse_classical_filename fname).1),
                         some "Classical"⟩ t, true)) := by
  refine ⟨fun a g => rfl, ?_, fun a g => rfl, ?_⟩
  · intro fname t
    by_cases h : ((parse_classical_filename fname).2).isEmpty <;>
      simp [processFile, h, lookup_musicbrainz_recording]
  · intro fname t h
    simp [processFile, h, lookup_musicbrainz_recording]

/-- Witness for C2's amended statement on a concrete filename: skipped
untouched when the result list is empty, tagged with the partial
identity when the only record is bare. -/
theorem heuristic_no_match_spec_witness :
    processFile "Ravel: Bolero.mp3".data [] emptyId3 = (emptyId3, false)
    ∧ processFile "Ravel: Bolero.mp3".data [⟨none, [], []⟩] emptyId3 =
      ({ emptyId3 with
          title := some ["Bolero"], artist := some ["Ravel"],
          composer := some ["Ravel"], genre := some ["Classical"] }, true) := by
  constructor
  · exact heuristic_no_match_spec.2.1 "Ravel: Bolero.mp3".data emptyId3
  · exact (heuristic_no_match_spec.2.2.2 "Ravel: Bolero.mp3".data emptyId3 (by decide)).trans
      (by decide)

theorem runLoop_total (songs : List StepEnv)
    (h : ∀ s ∈ songs, s ≠ StepEnv.dlErr ∧ s ≠ StepEnv.tagErr) :
    runLoop songs = ⟨countOk songs, false, songs.length⟩ := by
  induction songs with
  | nil => rfl
  | cons s rest ih =>
    have hs := h s (by simp)
    have ih2 := ih (fun x hx => h x (by simp [hx]))
    cases s <;> simp_all [runLoop, countOk]

/-- C1 counterexample: in a 3-item run whose second item fails at the
tag-writing stage, the exception escapes the per-item handling, the
third item is never processed and no `2/3` summary is produced — a
single item's failure does abort the run. -/
theorem run_isolation_cex :
    mainRun (Except.ok [StepEnv.ok, StepEnv.tagErr, StepEnv.ok]) = ⟨none, 1, 2, true⟩
    ∧ ¬ (mainRun (Except.ok [StepEnv.ok, StepEnv.tagErr, StepEnv.ok])).summary = some (2, 3) := by
  decide

/-- C1 amended: only a failure at the search stage (and a user skip) is
caught per item; when no item fails at the download/transcode or
tag-writing stage, every item is visited, search failures and skips are
counted as failures, and the final summary reports the number of
succeeded items out of the total. -/
theorem run_isolates_search_failures :
    ∀ songs : List StepEnv, (∀ s ∈ songs, s ≠ StepEnv.dlErr ∧ s ≠ StepEnv.tagErr) →
      mainRun (Except.ok songs) =
        ⟨some (countOk songs, songs.length), countOk songs, songs.length, false⟩ := by
  intro songs h
  simp [mainRun, runLoop_total songs h]

/-- Witness for C1's amended statement: a 3-item run whose second item
fails at the search stage yields the summary `2/3`. -/
theorem run_isolates_search_failures_witness :
    mainRun (Except.ok [StepEnv.ok, StepEnv.searchErr, StepEnv.ok]) = ⟨some (2, 3), 2, 3, false⟩ := by
  exact (run_isolates_search_failures [StepEnv.ok, StepEnv.searchErr, StepEnv.ok]
    (by decide)).trans (by decide)

theorem prompt_sticky_replace (ins : List String) :
    prompt_file_exists_action "RA" ins = some (true, "RA", 0) := rfl

theorem prompt_sticky_skip (ins : List String) :
    prompt_file_exists_action "SA" ins = some (false, "SA", 0) := rfl

theorem runCollisions_sticky_replace (cols : List (List String)) :
    runCollisions "RA" cols = (cols.map (fun _ => some (true, 0)), "RA") := by
  induction cols with
  | nil => rfl
  | cons ins rest ih => simp [runCollisions, prompt_sticky_replace, ih]

theorem runCollisions_sticky_skip (cols : List (List String)) :
    runCollisions "SA" cols = (cols.map (fun _ => some (false, 0)), "SA") := by
  induction cols with
  | nil => rfl
  | cons ins rest ih => simp [runCollisions, prompt_sticky_skip, ih]

theorem promptLoop_eq_firstValid (ins : List String) (n : Nat) :
    promptLoop "" ins n = (firstValid ins n).map respAction := by
  induction ins generalizing n with
  | nil => rfl
  | cons resp rest ih =>
    by_cases h1 : String.mk (normResp resp.data) = "R"
    · simp [promptLoop, firstValid, h1, respAction]
    · by_cases h2 : String.mk (normResp resp.data) = "RA"
      · simp [promptLoop, firstValid, h1, h2, respAction]
      · by_cases h3 : String.mk (normResp resp.data) = "S"
        · simp [promptLoop, firstValid, h1, h2, h3, respAction]
        · by_cases h4 : String.mk (normResp resp.data) = "SA"
          · simp [promptLoop, firstValid, h1, h2, h3, h4, respAction]
          · simp [promptLoop, firstValid, h1, h2, h3, h4, ih]

theorem prompt_unset_eq (ins : List String) :
    prompt_file_exists_action "" ins = (firstValid ins 0).map respAction := by
  have h : prompt_file_exists_action "" ins = promptLoop "" ins 0 := rfl
  rw [h, promptLoop_eq_firstValid]

/-- C4: the session sticky decision is absorbing — once the state is
`"RA"` (respectively `"SA"`), every collision of the rest of the run is
resolved as replace (respectively skip) with zero prompts and the state
never changes; from the unset state, a first valid answer of `RA`/`SA`
enters the corresponding sticky state and makes the whole remainder of
the run promptless with that same action, while `R`/`S` answers the
current collision only and leaves the state unset for the rest of the
run. -/
theorem sticky_decision_spec :
    (∀ cols, runCollisions "RA" cols = (cols.map (fun _ => some (true, 0)), "RA"))
    ∧ (∀ cols, runCollisions "SA" cols = (cols.map (fun _ => some (false, 0)), "SA"))
    ∧ (∀ (ins : List String) (rest : List (List String)) (n : Nat),
        firstValid ins 0 = some ("RA", n) →
        runCollisions "" (ins :: rest) =
          (some (true, n) :: rest.map (fun _ => some (true, 0)), "RA"))
    ∧ (∀ (ins : List String) (rest : List (List String)) (n : Nat),
        firstValid ins 0 = some ("SA", n) →
        runCollisions "" (ins :: rest) =
          (some (false, n) :: rest.map (fun _ => some (false, 0)), "SA"))
    ∧ (∀ (ins : List String) (rest : List (List String)) (n : Nat),
        firstValid ins 0 = some ("R", n) →
        runCollisions "" (ins :: rest) =
          (some (true, n) :: (runCollisions "" rest).1, (runCollisions "" rest).2))
    ∧ (∀ (ins : List String) (rest : List (List String)) (n : Nat),
        firstValid ins 0 = some ("S", n) →
        runCollisions "" (ins :: rest) =
          (some (false, n) :: (runCollisions "" rest).1, (runCollisions "" rest).2)) := by
  refine ⟨runCollisions_sticky_replace, runCollisions_sticky_skip, ?_, ?_, ?_, ?_⟩ <;>
    intro ins rest n h <;>
    simp [runCollisions, prompt_unset_eq, h, respAction,
      runCollisions_sticky_replace, runCollisions_sticky_skip]

/-- Witness for C4 at concrete answer streams: an invalid answer then
`ra` makes the rest of the run replace with no prompt; `sa` makes it
skip; a once-answer `r` or `s` applies only to its own collision and
leaves later collisions prompting again. -/
theorem sticky_decision_spec_witness :
    runCollisions "" [["x", "ra"], [], []] =
      ([some (true, 2), some (true, 0), some (true, 0)], "RA")
    ∧ runCollisions "" [["sa"], []] = ([some (false, 1), some (false, 0)], "SA")
    ∧ runCollisions "" [[" r "], ["ra"]] = ([some (true, 1), some (true, 1)], "RA")
    ∧ runCollisions "" [["s"], ["s"]] = ([some (false, 1), some (false, 1)], "") := by
  refine ⟨?_, ?_, ?_, ?_⟩
  · exact (sticky_decision_spec.2.2.1 ["x", "ra"] [[], []] 2 (by decide)).trans (by decide)
  · exact (sticky_decision_spec.2.2.2.1 ["sa"] [[]] 1 (by decide)).trans (by decide)
  · exact (sticky_decision_spec.2.2.2.2.1 [" r "] [["ra"]] 1 (by decide)).trans (by decide)
  · exact (sticky_decision_spec.2.2.2.2.2 ["s"] [["s"]] 1 (by decide)).trans (by decide)

theorem find_youtube_trace (tr : Nat → Option String) :
    (find_youtube tr).calls = (retryFetchAux tr 3 0 []).2.1
    ∧ (find_youtube tr).sleeps = (retryFetchAux tr 3 0 []).2.2 := by
  unfold find_youtube
  rcases hr : retryFetchAux tr 3 0 [] with ⟨resp, calls, sleeps⟩
  cases resp with
  | none => simp
  | some html => cases hx : extractIds html.data <;> simp [hx]

/-- C5: a search whose transport fails on every attempt makes exactly 3
`urlopen` calls, sleeps 1 second between consecutive attempts, and
raises the unreachable-transport error; a search whose transport first
succeeds on attempt `k` (zero-based, `k < 3`) stops retrying
immediately, having made `k + 1` calls and slept once per failed
attempt. -/
theorem search_retry_spec :
    (∀ tr : Nat → Option String, (∀ i, i < 3 → tr i = none) →
      find_youtube tr = ⟨SearchResult.err SearchErr.unreachable, 3, [1, 1, 1]⟩)
    ∧ (∀ (tr : Nat → Option String) (k : Nat) (html : String),
        k < 3 → tr k = some html → (∀ j, j < k → tr j = none) →
        (find_youtube tr).calls = k + 1 ∧ (find_youtube tr).sleeps = List.replicate k 1) := by
  constructor
  · intro tr h
    have h0 := h 0 (by omega)
    have h1 := h 1 (by omega)
    have h2 := h 2 (by omega)
    simp [find_youtube, retryFetchAux, h0, h1, h2]
  · intro tr k html hk htr hj
    have hc := find_youtube_trace tr
    interval_cases k
    · rw [hc.1, hc.2]
      simp [retryFetchAux, htr]
    · have hj0 := hj 0 (by omega)
      rw [hc.1, hc.2]
      simp [retryFetchAux, htr, hj0]
    · have hj0 := hj 0 (by omega)
      have hj1 := hj 1 (by omega)
      rw [hc.1, hc.2]
      simp [retryFetchAux, htr, hj0, hj1, List.replicate]

/-- Witness for C5: an always-failing transport raises after exactly 3
attempts with 1-second sleeps; a transport that succeeds on the second
attempt is called exactly twice. -/
theorem search_retry_spec_witness :
    find_youtube (fun _ => none) = ⟨SearchResult.err SearchErr.unreachable, 3, [1, 1, 1]⟩
    ∧ (find_youtube (fun n => if n = 1 then some "results page" else none)).calls = 2
    ∧ (find_youtube (fun n => if n = 1 then some "results page" else none)).sleeps = [1] := by
  have h2 := search_retry_spec.2 (fun n => if n = 1 then some "results page" else none) 1
    "results page" (by omega) (by decide)
    (by intro j hj; have hj0 : j = 0 := by omega
        simp [hj0])
  exact ⟨search_retry_spec.1 _ (fun i _ => rfl), h2.1, by simpa using h2.2⟩

/-- C6: the paging loop stops as soon as a page returns zero members
(returning exactly the items already resolved, even when the page still
reports "has more") or reports no further page; consequently a source
whose pages are empty from some offset on — in particular one that
keeps reporting "has more" with zero items page after page — never
makes the loop run forever. -/
theorem pagination_termination :
    (∀ (pages : Nat → Page) (resolve : String → TrackMeta) (fuel offset : Nat)
        (acc : List TrackMeta), (pages offset).items = [] →
        paginate pages resolve (fuel + 1) offset acc = some acc)
    ∧ (∀ (pages : Nat → Page) (resolve : String → TrackMeta) (fuel offset : Nat)
        (acc : List TrackMeta), (pages offset).next = false →
        (paginate pages resolve (fuel + 1) offset acc).isSome = true)
    ∧ (∀ (pages : Nat → Page) (resolve : String → TrackMeta) (N : Nat),
        (∀ off, N ≤ off → (pages off).items = []) →
        ∀ fuel offset acc, N ≤ offset + fuel →
          (paginate pages resolve (fuel + 1) offset acc).isSome = true) := by
  refine ⟨?_, ?_, ?_⟩
  · intro pages resolve fuel offset acc h
    simp [paginate, h]
  · intro pages resolve fuel offset acc h
    by_cases hi : (pages offset).items.isEmpty <;> simp [paginate, hi, h]
  · intro pages resolve N hN fuel
    induction fuel with
    | zero =>
      intro offset acc hb
      simp [paginate, hN offset (by omega)]
    | succ f ih =>
      intro offset acc hb
      by_cases hi : (pages offset).items.isEmpty
      · simp [paginate, hi]
      · have hlen : 1 ≤ (pages offset).items.length := by
          have : (pages offset).items ≠ [] := by
            simpa [List.isEmpty_iff] using hi
          exact List.length_pos.mpr this
        by_cases hnext : (pages offset).next
        · have := ih (offset + (pages offset).items.length)
            (acc ++ collectPage resolve (pages offset).items) (by omega)
          simpa [paginate, hi, hnext] using this
        · simp [paginate, hi, hnext]

/-- Witness for C6: a source that always reports "has more" with zero
items terminates immediately, returning the already-resolved items;
bounded-empty and no-next sources also terminate. -/
theorem pagination_termination_witness :
    paginate (fun _ => ⟨[], true⟩) (fun _ => ⟨"A", "T", 1, "", "u", "Al", "2020", ["A"]⟩) 1 0
      [⟨"A", "T", 1, "", "u", "Al", "2020", ["A"]⟩] =
      some [⟨"A", "T", 1, "", "u", "Al", "2020", ["A"]⟩]
    ∧ (paginate (fun _ => ⟨[some ⟨some "x"⟩], false⟩)
        (fun _ => ⟨"A", "T", 1, "", "u", "Al", "2020", ["A"]⟩) 1 0 []).isSome = true
    ∧ (paginate (fun _ => ⟨[], true⟩)
        (fun _ => ⟨"A", "T", 1, "", "u", "Al", "2020", ["A"]⟩) 5 7 []).isSome = true := by
  refine ⟨?_, ?_, ?_⟩
  · exact pagination_termination.1 _ _ 0 0 _ rfl
  · exact pagination_termination.2.1 _ _ 0 0 [] rfl
  · exact pagination_termination.2.2 _ _ 0 (fun _ _ => rfl) 4 7 [] (by omega)

/-- C7: a run whose playlist probe fails or whose playlist is private is
aborted by the run-level handler before the download loop starts — no
item is visited, nothing is downloaded, and no summary is printed. -/
theorem inaccessible_playlist_fatal :
    ∀ (env : PlaylistEnv) (beh : Nat → StepEnv) (fuel : Nat),
      env.status ≠ 200 ∨ env.isPublic = false →
      mainPlaylist env beh fuel = some ⟨none, 0, 0, true⟩ := by
  intro env beh fuel h
  rcases h with h | h
  · simp [mainPlaylist, get_playlist_info, h, mainRun]
  · by_cases st : env.status = 200 <;>
      simp [mainPlaylist, get_playlist_info, st, h, mainRun]

/-- Witness for C7: a playlist whose probe returns 404 aborts the run
with zero items processed. -/
theorem inaccessible_playlist_fatal_witness :
    mainPlaylist ⟨404, true, fun _ => ⟨[], false⟩, fun _ => ⟨"A", "T", 1, "", "u", "Al", "2020", ["A"]⟩⟩
      (fun _ => StepEnv.ok) 3 = some ⟨none, 0, 0, true⟩ :=
  inaccessible_playlist_fatal _ _ 3 (Or.inl (by decide))

/-- C8 counterexample: the downloader's tag writer assigns the album
frame unconditionally, so a record whose album name is empty overwrites
an existing album tag with the empty value instead of leaving it
unchanged. -/
theorem tag_writer_empty_cex :
    (⟨"Chopin", "Nocturne", 1, "", "art", "", "1832", ["Chopin"]⟩ : TrackMeta).album_name = ""
    ∧ (set_metadata ⟨"Chopin", "Nocturne", 1, "", "art", "", "1832", ["Chopin"]⟩ (fun _ => [])
        { emptyId3 with album := some ["Nocturnes"] }).album = some [""]
    ∧ ¬ (set_metadata ⟨"Chopin", "Nocturne", 1, "", "art", "", "1832", ["Chopin"]⟩ (fun _ => [])
        { emptyId3 with album := some ["Nocturnes"] }).album =
      ({ emptyId3 with album := some ["Nocturnes"] } : Id3Tags).album := by
  decide

/-- C8 amended: the heuristic tagger's writer stores only metadata keys
that are present with a non-empty value, leaving every other frame
unchanged; the downloader's writer assigns its frames unconditionally
and guards only the ISRC, which is left unchanged when the record's
ISRC is empty. -/
theorem tag_writer_empty_spec :
    (∀ (mb : MbMeta) (t : Id3Tags) (f : MbField),
        mbGet mb f = none ∨ mbGet mb f = some "" →
        tagGet (set_id3_tags mb t) f = tagGet t f)
    ∧ (∀ (md : TrackMeta) (fa : String → List Nat) (t : Id3Tags),
        md.isrc = "" → (set_metadata md fa t).isrc = t.isrc) := by
  constructor
  · intro mb t f h
    cases f <;> rcases h with h | h <;>
      simp only [set_id3_tags, tagGet, mbGet, storeVal] at h ⊢ <;> rw [h] <;> simp
  · intro md fa t h
    simp [set_metadata, h]

/-- Witness for C8's amended statement: a metadata dict with all keys
missing leaves the album frame unchanged, and an empty ISRC leaves the
ISRC frame unchanged. -/
theorem tag_writer_empty_spec_witness :
    tagGet (set_id3_tags ⟨none, none, none, none, none, none⟩ emptyId3) MbField.album =
      tagGet emptyId3 MbField.album
    ∧ (set_metadata ⟨"A", "T", 1, "", "u", "Al", "2020", ["A"]⟩ (fun _ => []) emptyId3).isrc =
      emptyId3.isrc :=
  ⟨tag_writer_empty_spec.1 _ _ _ (Or.inl rfl), tag_writer_empty_spec.2 _ _ _ rfl⟩

theorem storeVal_idem (v : Option String) (old : Option (List String)) :
    storeVal v (storeVal v old) = storeVal v old := by
  cases v with
  | none => rfl
  | some s => by_cases h : s = "" <;> simp [storeVal, h]

/-- C9: both tag writers are idempotent — applying the same writer twice
with identical metadata yields the same frame values as applying it
once; nothing is duplicated or appended. -/
theorem tag_writing_idempotent :
    (∀ (mb : MbMeta) (t : Id3Tags), set_id3_tags mb (set_id3_tags mb t) = set_id3_tags mb t)
    ∧ (∀ (md : TrackMeta) (fa : String → List Nat) (t : Id3Tags),
        set_metadata md fa (set_metadata md fa t) = set_metadata md fa t) := by
  constructor
  · intro mb t
    simp [set_id3_tags, storeVal_idem]
  · intro md fa t
    by_cases h : md.isrc = "" <;> simp [set_metadata, h]

/-- C10: the dispatch tests `"track" in url` before `"playlist" in
url`, so the syntactically valid playlist URL
`https://open.spotify.com/playlist/track123` passes validation yet is
resolved as a single track; and any URL containing `"track"` anywhere is
dispatched to the track branch. -/
theorem dispatch_track_first :
    validate_spotify_url "https://open.spotify.com/playlist/track123".data = true
    ∧ startsWithL "https://open.spotify.com/playlist/".data
        "https://open.spotify.com/playlist/track123".data = true
    ∧ dispatch "https://open.spotify.com/playlist/track123".data = UrlKind.track
    ∧ (∀ u : List Char, containsSub u "track".data = true → dispatch u = UrlKind.track) := by
  refine ⟨by decide, by decide, by decide, ?_⟩
  intro u h
  simp [dispatch, h]

/-- Witness for C10: another playlist URL whose identifier contains
`"track"` is dispatched to the track branch. -/
theorem dispatch_track_first_witness :
    dispatch "https://open.spotify.com/playlist/track999".data = UrlKind.track :=
  dispatch_track_first.2.2.2 _ (by decide)
